import Mathlib

/-!
Verification model of the Chat_Backend real-time messaging core
(chat/consumers.py, chat/models.py, accounts/models.py), embedded shallowly:
database rows become Lean structures, the database a structure of row lists,
and each consumer handler a pure function from the database (plus the
session's room/user context and the inbound frame) to the new database, the
list of fanout events handed to the channel layer, and any replies sent only
to the requesting socket.  Timestamps are abstract `Nat` clock values passed
in by the caller; fresh primary keys are likewise passed in.
-/

namespace ChatBackend

/-- A user row (accounts/models.py `User`): the fields the messaging core
touches — primary key, username, online flag, status string, last_seen. -/
structure UserRec where
  id : Nat
  username : String
  is_online : Bool
  status : String
  last_seen : Nat
  deriving Repr, DecidableEq

/-- A chat room row (chat/models.py `ChatRoom`) together with its member set
(the `members` many-to-many, one entry per `ChatRoomMembership`). -/
structure ChatRoom where
  id : Nat
  members : List Nat
  deriving Repr, DecidableEq

/-- A room message row (chat/models.py `Message`). -/
structure Message where
  id : Nat
  room : Nat
  sender : Nat
  content : String
  reply_to : Option Nat
  is_edited : Bool
  edited_at : Option Nat
  is_deleted : Bool
  deleted_at : Option Nat
  created_at : Nat
  deriving Repr, DecidableEq

/-- A reaction row (chat/models.py `MessageReaction`); unique per
(message, user, reaction_type) triple.  The kind is kept as the optional
string the consumer read from the frame (`data.get` yields `None` when the
key is absent). -/
structure MessageReaction where
  message : Nat
  user : Nat
  reaction_type : Option String
  created_at : Nat
  deriving Repr, DecidableEq

/-- A direct message row (chat/models.py `DirectMessage`). -/
structure DirectMessage where
  id : Nat
  sender : Nat
  recipient : Nat
  content : String
  is_read : Bool
  read_at : Option Nat
  is_edited : Bool
  edited_at : Option Nat
  is_deleted : Bool
  deleted_at : Option Nat
  created_at : Nat
  deriving Repr, DecidableEq

/-- A conversation row (chat/models.py `Conversation`) with its two
participants and the `last_message` pointer. -/
structure Conversation where
  id : Nat
  participants : List Nat
  last_message : Option Nat
  deriving Repr, DecidableEq

/-- The persistence store: one list of rows per table. -/
structure DB where
  users : List UserRec
  rooms : List ChatRoom
  messages : List Message
  reactions : List MessageReaction
  directMessages : List DirectMessage
  conversations : List Conversation
  deriving Repr, DecidableEq

/-- `Message.edit_message` (models.py): overwrite content, set the edited
flag and timestamp.  Mirrors the method body; it performs no is_deleted
check. -/
def Message.editMessage (m : Message) (new_content : String) (now : Nat) : Message :=
  { m with content := new_content, is_edited := true, edited_at := some now }

/-- `Message.delete_message` (models.py): soft delete — set the deleted flag
and timestamp and replace the content with the fixed placeholder. -/
def Message.deleteMessage (m : Message) (now : Nat) : Message :=
  { m with is_deleted := true, deleted_at := some now,
           content := "This message was deleted" }

/-- `DirectMessage.edit_message` (models.py). -/
def DirectMessage.editMessage (m : DirectMessage) (new_content : String) (now : Nat) :
    DirectMessage :=
  { m with content := new_content, is_edited := true, edited_at := some now }

/-- `DirectMessage.delete_message` (models.py): same soft delete as for room
messages, with the same placeholder string. -/
def DirectMessage.deleteMessage (m : DirectMessage) (now : Nat) : DirectMessage :=
  { m with is_deleted := true, deleted_at := some now,
           content := "This message was deleted" }

/-- `User.set_online_status` (accounts/models.py): set the online flag, the
matching status string, and refresh last_seen when going online. -/
def UserRec.setOnlineStatus (u : UserRec) (b : Bool) (now : Nat) : UserRec :=
  { u with is_online := b,
           status := if b then "online" else "offline",
           last_seen := if b then now else u.last_seen }

/-- Saving a mutated `Message` row back into the table (Django `save()`):
replace the row with the same primary key. -/
def DB.saveMessage (db : DB) (m : Message) : DB :=
  { db with messages := db.messages.map (fun x => if x.id == m.id then m else x) }

/-- Saving a mutated `DirectMessage` row back into the table. -/
def DB.saveDirectMessage (db : DB) (m : DirectMessage) : DB :=
  { db with directMessages :=
      db.directMessages.map (fun x => if x.id == m.id then m else x) }

/-- Saving a mutated `User` row back into the table. -/
def DB.saveUser (db : DB) (u : UserRec) : DB :=
  { db with users := db.users.map (fun x => if x.id == u.id then u else x) }

/-! ## The channel layer

`channel_layer.group_add / group_discard / group_send`: the live fanout
registry, a set of (group name, channel name) pairs. -/

/-- The live registry: which channel (session) is subscribed to which group
key. -/
abbrev ChannelLayer := List (String × String)

/-- `group_add`: add the channel to the group (set semantics). -/
def group_add (layer : ChannelLayer) (g c : String) : ChannelLayer :=
  if layer.contains (g, c) then layer else (g, c) :: layer

/-- `group_discard`: remove the channel from the group; safe when absent. -/
def group_discard (layer : ChannelLayer) (g c : String) : ChannelLayer :=
  layer.filter (fun p => p != (g, c))

/-- The group key a room session subscribes to: `f'chat_{room_id}'`. -/
def roomGroupName (room_id : Nat) : String := s!"chat_{room_id}"

/-- The group key a conversation session subscribes to:
`f'direct_{conversation_id}'`. -/
def dmGroupName (conversation_id : Nat) : String := s!"direct_{conversation_id}"

/-! ## Inbound and outbound frames -/

/-- The fields the consumers read from a decoded JSON object, each optional
(`data.get(...)` yields `None` when the key is absent). -/
structure FrameData where
  type : Option String := none
  content : Option String := none
  reply_to : Option Nat := none
  message_id : Option Nat := none
  reaction_type : Option String := none
  action : Option String := none
  is_typing : Option Bool := none
  message_ids : Option (List Nat) := none
  deriving Repr, DecidableEq

/-- One inbound websocket frame: either undecodable text
(`json.JSONDecodeError`) or a decoded object. -/
inductive Frame where
  | malformed
  | obj (data : FrameData)
  deriving Repr, DecidableEq

/-- Python truthiness of the optional `reply_to` id
(`if reply_to_id:` is false for both `None` and `0`). -/
def truthyId : Option Nat → Bool
  | none => false
  | some n => n != 0

/-- Python `str.strip()`: drop leading and trailing whitespace.  Defined
structurally over the character list so that it evaluates inside the
kernel. -/
def pyStrip (s : String) : String :=
  ⟨((s.data.dropWhile Char.isWhitespace).reverse.dropWhile Char.isWhitespace).reverse⟩

/-- A reply sent only to the requesting socket (`self.send`), not through
the group. -/
inductive SelfReply where
  | errorReply (error : String)
  deriving Repr, DecidableEq

/-- An event fanned out on a room group (`group_send` payloads of
ChatConsumer), tagged by its `type` field. -/
inductive RoomEvent where
  | chatMessage (message : Message)
  | typingIndicator (user : String) (is_typing : Bool)
  | messageReaction (message_id : Option Nat) (reaction_type : Option String)
      (action : String) (user : String)
  | messageEdited (message : Message)
  | messageDeleted (message_id : Option Nat)
  deriving Repr, DecidableEq

/-- An event fanned out on a conversation group (`group_send` payloads of
DirectMessageConsumer). -/
inductive DMEvent where
  | directMessage (message : DirectMessage)
  | typingIndicator (user : String) (is_typing : Bool)
  | messagesRead (message_ids : List Nat) (user : String)
  deriving Repr, DecidableEq

/-- A frame written to one session's socket by the per-event-type handlers. -/
inductive OutFrame where
  | chatMessage (message : Message)
  | typingIndicator (user : String) (is_typing : Bool)
  | messageReaction (message_id : Option Nat) (reaction_type : Option String)
      (action : String) (user : String)
  | messageEdited (message : Message)
  | messageDeleted (message_id : Option Nat)
  | directMessage (message : DirectMessage)
  | messagesRead (message_ids : List Nat) (user : String)
  deriving Repr, DecidableEq

/-! ## ChatConsumer (room sessions) -/

/-- Whether a connection attempt was accepted or closed. -/
inductive ConnectOutcome where
  | accepted
  | closed
  deriving Repr, DecidableEq

namespace ChatConsumer

/-- `ChatConsumer.is_room_member`: the room must exist and its member set
contain the user's id; an anonymous user (`user_id = none`, Django
`AnonymousUser.id is None`) matches no membership row, and a missing room
yields `False` via `ChatRoom.DoesNotExist`. -/
def is_room_member (db : DB) (room_id : Nat) (user_id : Option Nat) : Bool :=
  match db.rooms.find? (fun r => r.id == room_id) with
  | none => false
  | some room =>
    match user_id with
    | none => false
    | some uid => room.members.contains uid

/-- `ChatConsumer.update_user_status`: `self.user.set_online_status(b)`,
saved back to the user table. -/
def update_user_status (db : DB) (user_id : Nat) (b : Bool) (now : Nat) : DB :=
  match db.users.find? (fun u => u.id == user_id) with
  | some u => db.saveUser (u.setOnlineStatus b now)
  | none => db

/-- `ChatConsumer.connect`: check membership; on failure close with no
further action; on success join the room group, accept, and flip the user
online. -/
def connect (db : DB) (layer : ChannelLayer) (room_id : Nat)
    (user_id : Option Nat) (channel_name : String) (now : Nat) :
    ConnectOutcome × ChannelLayer × DB :=
  if is_room_member db room_id user_id then
    let layer' := group_add layer (roomGroupName room_id) channel_name
    match user_id with
    | some uid => (.accepted, layer', update_user_status db uid true now)
    | none => (.accepted, layer', db)
  else
    (.closed, layer, db)

/-- `ChatConsumer.disconnect`: leave the room group, then flip the user
offline. -/
def disconnect (db : DB) (layer : ChannelLayer) (room_id : Nat)
    (user_id : Nat) (channel_name : String) (now : Nat) : ChannelLayer × DB :=
  (group_discard layer (roomGroupName room_id) channel_name,
   update_user_status db user_id false now)

/-- `ChatConsumer.save_message`: re-fetch the room (group-not-found fails the
create); resolve the reply target against the same room, silently dropping
it when absent; insert the new message row with the model defaults
(`is_edited = is_deleted = False`). -/
def save_message (db : DB) (room_id user_id : Nat) (content : String)
    (reply_to_id : Option Nat) (now new_id : Nat) : Option Message × DB :=
  match db.rooms.find? (fun r => r.id == room_id) with
  | none => (none, db)
  | some _ =>
    let reply_to : Option Nat :=
      if truthyId reply_to_id then
        match db.messages.find? (fun m => some m.id == reply_to_id && m.room == room_id) with
        | some r => some r.id
        | none => none
      else none
    let msg : Message :=
      { id := new_id, room := room_id, sender := user_id, content := content,
        reply_to := reply_to, is_edited := false, edited_at := none,
        is_deleted := false, deleted_at := none, created_at := now }
    (some msg, { db with messages := msg :: db.messages })

/-- `ChatConsumer.handle_chat_message`: strip the content, silently drop
blanks, save, and fan out one `chat_message` event iff the save returned a
message. -/
def handle_chat_message (db : DB) (room_id user_id : Nat) (d : FrameData)
    (now new_id : Nat) : DB × List RoomEvent :=
  let content := pyStrip (d.content.getD "")
  if content == "" then (db, [])
  else
    match save_message db room_id user_id content d.reply_to now new_id with
    | (some msg, db') => (db', [RoomEvent.chatMessage msg])
    | (none, db') => (db', [])

/-- `ChatConsumer.handle_typing`: unconditionally fan out a typing
indicator carrying the sender's username. -/
def handle_typing (username : String) (d : FrameData) : List RoomEvent :=
  [RoomEvent.typingIndicator username (d.is_typing.getD false)]

/-- `ChatConsumer.add_message_reaction`: fetch the message within this room
(`DoesNotExist` yields `None`), then `get_or_create` the
(message, user, kind) triple; returns the reaction only when it was
created. -/
def add_message_reaction (db : DB) (room_id user_id : Nat)
    (message_id : Option Nat) (reaction_type : Option String) (now : Nat) :
    Option MessageReaction × DB :=
  match db.messages.find? (fun m => some m.id == message_id && m.room == room_id) with
  | none => (none, db)
  | some m =>
    match db.reactions.find?
        (fun r => r.message == m.id && r.user == user_id && r.reaction_type == reaction_type) with
    | some _ => (none, db)
    | none =>
      let r : MessageReaction :=
        { message := m.id, user := user_id, reaction_type := reaction_type,
          created_at := now }
      (some r, { db with reactions := r :: db.reactions })

/-- `ChatConsumer.remove_message_reaction`: fetch the message within this
room and delete every matching (message, user, kind) row; absence of the
message or of the row is silently ignored. -/
def remove_message_reaction (db : DB) (room_id user_id : Nat)
    (message_id : Option Nat) (reaction_type : Option String) : DB :=
  match db.messages.find? (fun m => some m.id == message_id && m.room == room_id) with
  | none => db
  | some m =>
    let keep := fun (r : MessageReaction) =>
      !(r.message == m.id && r.user == user_id && r.reaction_type == reaction_type)
    { db with reactions := db.reactions.filter keep }

/-- `ChatConsumer.handle_message_reaction`: apply the add or remove, then
fan out one `message_reaction` event unconditionally — the source sends the
group event whether or not the database operation was a no-op. -/
def handle_message_reaction (db : DB) (room_id user_id : Nat)
    (username : String) (d : FrameData) (now : Nat) : DB × List RoomEvent :=
  let action := d.action.getD "add"
  let db' :=
    if action == "add" then
      (add_message_reaction db room_id user_id d.message_id d.reaction_type now).2
    else
      remove_message_reaction db room_id user_id d.message_id d.reaction_type
  (db', [RoomEvent.messageReaction d.message_id d.reaction_type action username])

/-- `ChatConsumer.edit_message`: fetch by (id, room, sender) — the requester
must be the sender and the message must be in this room — then apply
`Message.edit_message` and save; `DoesNotExist` yields `None` with no
change.  No `is_deleted` check is performed. -/
def edit_message (db : DB) (room_id user_id : Nat) (message_id : Option Nat)
    (new_content : String) (now : Nat) : Option Message × DB :=
  match db.messages.find?
      (fun m => some m.id == message_id && m.room == room_id && m.sender == user_id) with
  | some m =>
    let m' := m.editMessage new_content now
    (some m', db.saveMessage m')
  | none => (none, db)

/-- `ChatConsumer.delete_message`: fetch by (id, room, sender), then apply
the soft delete and save; `DoesNotExist` yields `None` with no change.
No `is_deleted` check is performed before re-deleting. -/
def delete_message (db : DB) (room_id user_id : Nat) (message_id : Option Nat)
    (now : Nat) : Option Message × DB :=
  match db.messages.find?
      (fun m => some m.id == message_id && m.room == room_id && m.sender == user_id) with
  | some m =>
    let m' := m.deleteMessage now
    (some m', db.saveMessage m')
  | none => (none, db)

/-- `ChatConsumer.handle_message_edit`: strip the new content, silently drop
blanks, edit, and fan out one `message_edited` event iff the edit returned a
message. -/
def handle_message_edit (db : DB) (room_id user_id : Nat) (d : FrameData)
    (now : Nat) : DB × List RoomEvent :=
  let new_content := pyStrip (d.content.getD "")
  if new_content == "" then (db, [])
  else
    match edit_message db room_id user_id d.message_id new_content now with
    | (some m, db') => (db', [RoomEvent.messageEdited m])
    | (none, db') => (db', [])

/-- `ChatConsumer.handle_message_delete`: delete, and fan out one
`message_deleted` event (carrying the raw requested id) iff the delete
returned a message. -/
def handle_message_delete (db : DB) (room_id user_id : Nat) (d : FrameData)
    (now : Nat) : DB × List RoomEvent :=
  match delete_message db room_id user_id d.message_id now with
  | (some _, db') => (db', [RoomEvent.messageDeleted d.message_id])
  | (none, db') => (db', [])

/-- `ChatConsumer.receive`: decode and dispatch on the `type` tag
(`if/elif` chain); unknown tags fall through with no action;
`json.JSONDecodeError` produces one error reply to the sender only.  The
connection is never closed here. -/
def receive (db : DB) (room_id user_id : Nat) (username : String)
    (fr : Frame) (now new_id : Nat) : DB × List RoomEvent × List SelfReply :=
  match fr with
  | .malformed => (db, [], [SelfReply.errorReply "Invalid JSON"])
  | .obj d =>
    if d.type == some "chat_message" then
      let (db', evs) := handle_chat_message db room_id user_id d now new_id
      (db', evs, [])
    else if d.type == some "typing" then
      (db, handle_typing username d, [])
    else if d.type == some "message_reaction" then
      let (db', evs) := handle_message_reaction db room_id user_id username d now
      (db', evs, [])
    else if d.type == some "message_edit" then
      let (db', evs) := handle_message_edit db room_id user_id d now
      (db', evs, [])
    else if d.type == some "message_delete" then
      let (db', evs) := handle_message_delete db room_id user_id d now
      (db', evs, [])
    else
      (db, [], [])

/-- Per-session delivery of a room group event
(`chat_message` / `typing_indicator` / `message_reaction` /
`message_edited` / `message_deleted` methods): every kind is written to the
socket except a typing indicator originated by this session's own user. -/
def deliver (e : RoomEvent) (username : String) : Option OutFrame :=
  match e with
  | .chatMessage m => some (.chatMessage m)
  | .typingIndicator u b =>
    if u != username then some (.typingIndicator u b) else none
  | .messageReaction mid rt a u => some (.messageReaction mid rt a u)
  | .messageEdited m => some (.messageEdited m)
  | .messageDeleted mid => some (.messageDeleted mid)

end ChatConsumer

/-! ## DirectMessageConsumer (conversation sessions) -/

/-- consumers.py line 2 reads `from datetime import timezone`, which binds
`timezone` to the `datetime.timezone` class; that class has no `now`
attribute, so evaluating `timezone.now()` inside this module raises
`AttributeError` (models.py, by contrast, imports `django.utils.timezone`).
Modelled as the error the call raises. -/
def consumersTimezoneNow : Except String Nat :=
  Except.error "AttributeError: type object datetime.timezone has no attribute now"

namespace DirectMessageConsumer

/-- `DirectMessageConsumer.is_conversation_participant`: the conversation
must exist and its participant set contain the user's id; anonymous users
and missing conversations yield `False`. -/
def is_conversation_participant (db : DB) (conversation_id : Nat)
    (user_id : Option Nat) : Bool :=
  match db.conversations.find? (fun c => c.id == conversation_id) with
  | none => false
  | some conv =>
    match user_id with
    | none => false
    | some uid => conv.participants.contains uid

/-- `DirectMessageConsumer.connect`: check participation; on failure close
with no further action; on success join the conversation group and accept.
No presence update is performed. -/
def connect (db : DB) (layer : ChannelLayer) (conversation_id : Nat)
    (user_id : Option Nat) (channel_name : String) :
    ConnectOutcome × ChannelLayer × DB :=
  if is_conversation_participant db conversation_id user_id then
    (.accepted, group_add layer (dmGroupName conversation_id) channel_name, db)
  else
    (.closed, layer, db)

/-- `DirectMessageConsumer.disconnect`: leave the conversation group.  No
presence update is performed. -/
def disconnect (db : DB) (layer : ChannelLayer) (conversation_id : Nat)
    (channel_name : String) : ChannelLayer × DB :=
  (group_discard layer (dmGroupName conversation_id) channel_name, db)

/-- `Conversation.get_other_participant`: the first participant whose id is
not the given user's. -/
def get_other_participant (conv : Conversation) (user_id : Nat) : Option Nat :=
  (conv.participants.filter (fun p => p != user_id)).head?

/-- `DirectMessageConsumer.save_direct_message`: re-fetch the conversation
(vanished conversation fails the create), resolve the recipient as the
other participant, insert the new direct-message row with the model
defaults, and update the conversation's `last_message` pointer. -/
def save_direct_message (db : DB) (conversation_id user_id : Nat)
    (content : String) (now new_id : Nat) : Option DirectMessage × DB :=
  match db.conversations.find? (fun c => c.id == conversation_id) with
  | none => (none, db)
  | some conv =>
    let recipient := (get_other_participant conv user_id).getD 0
    let msg : DirectMessage :=
      { id := new_id, sender := user_id, recipient := recipient,
        content := content, is_read := false, read_at := none,
        is_edited := false, edited_at := none, is_deleted := false,
        deleted_at := none, created_at := now }
    let convs := db.conversations.map
      (fun c => if c.id == conv.id then { c with last_message := some new_id } else c)
    (some msg, { db with directMessages := msg :: db.directMessages,
                         conversations := convs })

/-- `DirectMessageConsumer.handle_direct_message`: strip the content,
silently drop blanks, save, and fan out one `direct_message` event iff the
save returned a message. -/
def handle_direct_message (db : DB) (conversation_id user_id : Nat)
    (d : FrameData) (now new_id : Nat) : DB × List DMEvent :=
  let content := pyStrip (d.content.getD "")
  if content == "" then (db, [])
  else
    match save_direct_message db conversation_id user_id content now new_id with
    | (some msg, db') => (db', [DMEvent.directMessage msg])
    | (none, db') => (db', [])

/-- `DirectMessageConsumer.mark_messages_as_read`: filter the direct
messages to those in the id set whose recipient is the requester and that
are still unread, and update `is_read`/`read_at` — but the `timezone.now()`
argument is evaluated first and raises (see `consumersTimezoneNow`), so the
call always errors before touching any row. -/
def mark_messages_as_read (db : DB) (user_id : Nat)
    (message_ids : List Nat) : Except String DB :=
  match consumersTimezoneNow with
  | .error e => .error e
  | .ok now =>
    let upd := fun (m : DirectMessage) =>
      if message_ids.contains m.id && m.recipient == user_id && m.is_read == false
      then { m with is_read := true, read_at := some now }
      else m
    .ok { db with directMessages := db.directMessages.map upd }

/-- `DirectMessageConsumer.handle_message_read`: mark the ids read, then fan
out one `messages_read` event; an error raised by the marking propagates
(only `json.JSONDecodeError` is caught in `receive`), so no event follows
it. -/
def handle_message_read (db : DB) (user_id : Nat) (username : String)
    (d : FrameData) : Except String (DB × List DMEvent) :=
  let message_ids := d.message_ids.getD []
  match mark_messages_as_read db user_id message_ids with
  | .error e => .error e
  | .ok db' => .ok (db', [DMEvent.messagesRead message_ids username])

/-- `DirectMessageConsumer.receive`: decode and dispatch on the `type` tag;
unknown tags fall through with no action; `json.JSONDecodeError` produces
one error reply to the sender only.  An exception escaping a handler is
surfaced as `Except.error`. -/
def receive (db : DB) (conversation_id user_id : Nat) (username : String)
    (fr : Frame) (now new_id : Nat) :
    Except String (DB × List DMEvent × List SelfReply) :=
  match fr with
  | .malformed => .ok (db, [], [SelfReply.errorReply "Invalid JSON"])
  | .obj d =>
    if d.type == some "direct_message" then
      let (db', evs) := handle_direct_message db conversation_id user_id d now new_id
      .ok (db', evs, [])
    else if d.type == some "typing" then
      .ok (db, [DMEvent.typingIndicator username (d.is_typing.getD false)], [])
    else if d.type == some "message_read" then
      match handle_message_read db user_id username d with
      | .error e => .error e
      | .ok (db', evs) => .ok (db', evs, [])
    else
      .ok (db, [], [])

/-- Per-session delivery of a conversation group event
(`direct_message` / `typing_indicator` / `messages_read` methods): direct
messages are written to every socket in the group; typing indicators and
read receipts are suppressed for the session whose user originated them. -/
def deliver (e : DMEvent) (username : String) : Option OutFrame :=
  match e with
  | .directMessage m => some (.directMessage m)
  | .typingIndicator u b =>
    if u != username then some (.typingIndicator u b) else none
  | .messagesRead ids u =>
    if u != username then some (.messagesRead ids u) else none

end DirectMessageConsumer

/-! ## Concrete fixtures

A small database used to exercise the operations on concrete inputs: two
users, one room both belong to, one already soft-deleted message sent by
user 1, and one existing "like" reaction by user 1 on that message. -/

/-- A message that has already been soft deleted (placeholder content,
`is_deleted = true`), sent by user 1 in room 1. -/
def sampleDeletedMessage : Message where
  id := 10
  room := 1
  sender := 1
  content := "This message was deleted"
  reply_to := none
  is_edited := false
  edited_at := none
  is_deleted := true
  deleted_at := some 3
  created_at := 1

/-- The fixture database. -/
def sampleDb : DB where
  users := [⟨1, "alice", false, "offline", 0⟩, ⟨2, "bob", false, "offline", 0⟩]
  rooms := [⟨1, [1, 2]⟩]
  messages := [sampleDeletedMessage]
  reactions := [⟨10, 1, some "like", 2⟩]
  directMessages := []
  conversations := []

/-- An inbound edit frame targeting the deleted message with fresh
content. -/
def sampleEditFrame : FrameData :=
  { type := some "message_edit", message_id := some 10, content := some "new" }

/-- An inbound react-add frame duplicating the existing (10, 1, like)
reaction. -/
def sampleReactFrame : FrameData :=
  { type := some "message_reaction", message_id := some 10,
    reaction_type := some "like", action := some "add" }

/-! ## Theorems -/

/-- If no stored message matches (id, room, sender), the find used by edit
and delete returns nothing. -/
theorem find_message_eq_none (db : DB) (room_id u : Nat) (mid : Option Nat)
    (h : ∀ m ∈ db.messages, ¬(some m.id = mid ∧ m.room = room_id ∧ m.sender = u)) :
    db.messages.find?
      (fun x => some x.id == mid && x.room == room_id && x.sender == u) = none := by
  rw [List.find?_eq_none]
  intro x hx
  have hc := h x hx
  simpa using hc

/-- Edit is a no-op when the (id, room, sender) lookup fails. -/
theorem edit_message_not_found (db : DB) (room_id u now : Nat)
    (mid : Option Nat) (c : String)
    (hf : db.messages.find?
      (fun x => some x.id == mid && x.room == room_id && x.sender == u) = none) :
    ChatConsumer.edit_message db room_id u mid c now = (none, db) := by
  simp [ChatConsumer.edit_message, hf]

/-- Delete is a no-op when the (id, room, sender) lookup fails. -/
theorem delete_message_not_found (db : DB) (room_id u now : Nat)
    (mid : Option Nat)
    (hf : db.messages.find?
      (fun x => some x.id == mid && x.room == room_id && x.sender == u) = none) :
    ChatConsumer.delete_message db room_id u mid now = (none, db) := by
  simp [ChatConsumer.delete_message, hf]

/-- Edit applies `Message.edit_message` and saves when the lookup
succeeds. -/
theorem edit_message_found (db : DB) (room_id u now : Nat)
    (mid : Option Nat) (c : String) (m : Message)
    (hf : db.messages.find?
      (fun x => some x.id == mid && x.room == room_id && x.sender == u) = some m) :
    ChatConsumer.edit_message db room_id u mid c now =
      (some (m.editMessage c now), db.saveMessage (m.editMessage c now)) := by
  simp [ChatConsumer.edit_message, hf]

/-- Delete applies `Message.delete_message` and saves when the lookup
succeeds. -/
theorem delete_message_found (db : DB) (room_id u now : Nat)
    (mid : Option Nat) (m : Message)
    (hf : db.messages.find?
      (fun x => some x.id == mid && x.room == room_id && x.sender == u) = some m) :
    ChatConsumer.delete_message db room_id u mid now =
      (some (m.deleteMessage now), db.saveMessage (m.deleteMessage now)) := by
  simp [ChatConsumer.delete_message, hf]

/-- The edit handler is a complete no-op, with no fanout event, when the
lookup fails. -/
theorem handle_message_edit_not_found (db : DB) (room_id u now : Nat)
    (d : FrameData)
    (hf : db.messages.find?
      (fun x => some x.id == d.message_id && x.room == room_id && x.sender == u) = none) :
    ChatConsumer.handle_message_edit db room_id u d now = (db, []) := by
  unfold ChatConsumer.handle_message_edit
  by_cases hc : (pyStrip (d.content.getD "") == "") = true
  · simp [hc]
  · simp [hc, edit_message_not_found db room_id u now d.message_id _ hf]

/-- The delete handler is a complete no-op, with no fanout event, when the
lookup fails. -/
theorem handle_message_delete_not_found (db : DB) (room_id u now : Nat)
    (d : FrameData)
    (hf : db.messages.find?
      (fun x => some x.id == d.message_id && x.room == room_id && x.sender == u) = none) :
    ChatConsumer.handle_message_delete db room_id u d now = (db, []) := by
  unfold ChatConsumer.handle_message_delete
  simp [delete_message_not_found db room_id u now d.message_id hf]

/-- Claim C1 counterexample: in the fixture database the message with id 10
is already soft deleted (`is_deleted = true`, placeholder content), yet an
edit request by its sender replaces the placeholder with the new content and
produces a `message_edited` fanout event, and a second delete request
produces a `message_deleted` fanout event and re-stamps `deleted_at` — the
claimed no-op does not hold. -/
theorem C1_counterexample :
    sampleDeletedMessage.is_deleted = true ∧
    sampleDeletedMessage.content = "This message was deleted" ∧
    sampleDeletedMessage ∈ sampleDb.messages ∧
    (ChatConsumer.handle_message_edit sampleDb 1 1 sampleEditFrame 5).2 =
      [RoomEvent.messageEdited (sampleDeletedMessage.editMessage "new" 5)] ∧
    (ChatConsumer.handle_message_edit sampleDb 1 1 sampleEditFrame 5).1.messages.map
      Message.content = ["new"] ∧
    (ChatConsumer.handle_message_delete sampleDb 1 1 sampleEditFrame 7).2 =
      [RoomEvent.messageDeleted (some 10)] ∧
    (ChatConsumer.handle_message_delete sampleDb 1 1 sampleEditFrame 7).1.messages.map
      Message.deleted_at = [some 7] := by
  refine ⟨rfl, rfl, by decide, by decide, by decide, by decide, by decide⟩

/-- Claim C1 as amended: the delete guard holds only against requests whose
(id, room, sender) lookup fails — a non-sender requester, a different
group, or a missing id — which are complete no-ops with no fanout event;
but the original sender can still edit a deleted message, replacing the
placeholder content and producing a `message_edited` event, and can delete
it again, re-stamping `deleted_at` and producing another `message_deleted`
event. -/
theorem C1_delete_one_way_amended (db : DB) (room_id u now : Nat)
    (mid : Option Nat) (c : String) (d : FrameData) (hd : d.message_id = mid) :
    ((∀ m ∈ db.messages, ¬(some m.id = mid ∧ m.room = room_id ∧ m.sender = u)) →
      ChatConsumer.edit_message db room_id u mid c now = (none, db) ∧
      ChatConsumer.delete_message db room_id u mid now = (none, db) ∧
      ChatConsumer.handle_message_edit db room_id u d now = (db, []) ∧
      ChatConsumer.handle_message_delete db room_id u d now = (db, [])) ∧
    (∀ m : Message,
      db.messages.find?
        (fun x => some x.id == mid && x.room == room_id && x.sender == u) = some m →
      m.sender = u ∧
      ChatConsumer.edit_message db room_id u mid c now =
        (some (m.editMessage c now), db.saveMessage (m.editMessage c now)) ∧
      (m.editMessage c now).content = c ∧
      ChatConsumer.handle_message_delete db room_id u d now =
        (db.saveMessage (m.deleteMessage now),
         [RoomEvent.messageDeleted d.message_id]) ∧
      (m.deleteMessage now).deleted_at = some now) := by
  subst hd
  constructor
  · intro h
    have hf := find_message_eq_none db room_id u d.message_id h
    exact ⟨edit_message_not_found db room_id u now d.message_id c hf,
           delete_message_not_found db room_id u now d.message_id hf,
           handle_message_edit_not_found db room_id u now d hf,
           handle_message_delete_not_found db room_id u now d hf⟩
  · intro m hf
    have hp := List.find?_some hf
    simp only [Bool.and_eq_true, beq_iff_eq] at hp
    refine ⟨hp.2, edit_message_found db room_id u now d.message_id c m hf, rfl, ?_, rfl⟩
    unfold ChatConsumer.handle_message_delete
    simp [delete_message_found db room_id u now d.message_id m hf]

/-- Claim C1 amended, witnessed at the fixture: user 2 (not the sender)
cannot edit the deleted message 10, while the sender's edit replaces the
placeholder. -/
theorem C1_delete_one_way_amended_witness :
    ChatConsumer.edit_message sampleDb 1 2 (some 10) "x" 5 = (none, sampleDb) ∧
    (sampleDeletedMessage.editMessage "new" 5).content = "new" := by
  refine ⟨((C1_delete_one_way_amended sampleDb 1 2 5 (some 10) "x" sampleEditFrame
      rfl).1 (by decide)).1,
    (((C1_delete_one_way_amended sampleDb 1 1 5 (some 10) "new" sampleEditFrame
      rfl).2 sampleDeletedMessage (by decide)).2.2.1)⟩

/-- Claim C10: both soft deletes — `Message.delete_message` and
`DirectMessage.delete_message` — set the content to the exact string
"This message was deleted", set `is_deleted` to true and `deleted_at` to the
deletion timestamp, and leave the sender, the group key (room for messages,
sender/recipient pair for direct messages), and the creation time
unchanged. -/
theorem C10_placeholder (m : Message) (dm : DirectMessage) (now : Nat) :
    (m.deleteMessage now).content = "This message was deleted" ∧
    (m.deleteMessage now).is_deleted = true ∧
    (m.deleteMessage now).deleted_at = some now ∧
    (m.deleteMessage now).sender = m.sender ∧
    (m.deleteMessage now).room = m.room ∧
    (m.deleteMessage now).created_at = m.created_at ∧
    (m.deleteMessage now).id = m.id ∧
    (dm.deleteMessage now).content = "This message was deleted" ∧
    (dm.deleteMessage now).is_deleted = true ∧
    (dm.deleteMessage now).deleted_at = some now ∧
    (dm.deleteMessage now).sender = dm.sender ∧
    (dm.deleteMessage now).recipient = dm.recipient ∧
    (dm.deleteMessage now).created_at = dm.created_at ∧
    (dm.deleteMessage now).id = dm.id := by
  refine ⟨rfl, rfl, rfl, rfl, rfl, rfl, rfl, rfl, rfl, rfl, rfl, rfl, rfl, rfl⟩

/-- Claim C7: sender-exclusion applies to exactly two outbound event kinds.
Typing indicators (both consumers) and read receipts are delivered exactly
when the originator is not this session's user; every other kind — chat
message, reaction, edit, delete, direct message — is delivered regardless
of the originator, the session's own events included. -/
theorem C7_sender_exclusion (username u : String) (b : Bool) (m : Message)
    (dm : DirectMessage) (mid : Option Nat) (rt : Option String) (a : String)
    (ids : List Nat) :
    ChatConsumer.deliver (.typingIndicator u b) username =
      (if u == username then none else some (.typingIndicator u b)) ∧
    ChatConsumer.deliver (.chatMessage m) username = some (.chatMessage m) ∧
    ChatConsumer.deliver (.messageReaction mid rt a u) username =
      some (.messageReaction mid rt a u) ∧
    ChatConsumer.deliver (.messageEdited m) username = some (.messageEdited m) ∧
    ChatConsumer.deliver (.messageDeleted mid) username = some (.messageDeleted mid) ∧
    DirectMessageConsumer.deliver (.directMessage dm) username =
      some (.directMessage dm) ∧
    DirectMessageConsumer.deliver (.typingIndicator u b) username =
      (if u == username then none else some (.typingIndicator u b)) ∧
    DirectMessageConsumer.deliver (.messagesRead ids u) username =
      (if u == username then none else some (.messagesRead ids u)) := by
  cases h : u == username <;>
    simp_all [ChatConsumer.deliver, DirectMessageConsumer.deliver, bne]

/-- Claim C3 (code bug): because consumers.py shadows `django.utils.timezone`
with `datetime.timezone` (which has no `now` attribute),
`DirectMessageConsumer.mark_messages_as_read` raises `AttributeError` on
every invocation before touching any row, and `handle_message_read` never
reaches its fanout; no direct message is ever marked read. -/
theorem C3_markread_always_raises (db : DB) (user_id : Nat)
    (message_ids : List Nat) (username : String) (d : FrameData) :
    DirectMessageConsumer.mark_messages_as_read db user_id message_ids =
      Except.error
        "AttributeError: type object datetime.timezone has no attribute now" ∧
    DirectMessageConsumer.handle_message_read db user_id username d =
      Except.error
        "AttributeError: type object datetime.timezone has no attribute now" := by
  exact ⟨rfl, rfl⟩

/-- A second react-add of the same (message, user, kind) triple creates
nothing and leaves the database exactly as the first add left it. -/
theorem add_message_reaction_idem (db : DB) (room_id u now now2 : Nat)
    (mid : Option Nat) (rt : Option String) :
    ChatConsumer.add_message_reaction
        (ChatConsumer.add_message_reaction db room_id u mid rt now).2
        room_id u mid rt now2 =
      (none, (ChatConsumer.add_message_reaction db room_id u mid rt now).2) := by
  unfold ChatConsumer.add_message_reaction
  cases hm : db.messages.find? (fun m => some m.id == mid && m.room == room_id) with
  | none => simp [hm]
  | some m =>
    cases hr : db.reactions.find?
        (fun r => r.message == m.id && r.user == u && r.reaction_type == rt) with
    | some r0 => simp [hm, hr]
    | none => simp [hm, hr, List.find?]

/-- Claim C2 counterexample: in the fixture database user 1 already holds a
"like" reaction on message 10; a repeated react-add leaves the stored
reactions unchanged (idempotent storage) yet still produces a
`message_reaction` fanout event, where the claim says a duplicate add
produces none. -/
theorem C2_counterexample :
    sampleDb.reactions = [⟨10, 1, some "like", 2⟩] ∧
    (ChatConsumer.handle_message_reaction sampleDb 1 1 "alice" sampleReactFrame 5).1.reactions =
      [⟨10, 1, some "like", 2⟩] ∧
    (ChatConsumer.handle_message_reaction sampleDb 1 1 "alice" sampleReactFrame 5).2 =
      [RoomEvent.messageReaction (some 10) (some "like") "add" "alice"] := by
  refine ⟨rfl, by decide, by decide⟩

/-- Claim C2 as amended: React-add is idempotent in storage — the second
add of a (message, user, kind) triple creates no row and returns the
database unchanged, and the same holds when the message does not exist —
but the reaction handler produces exactly one fanout event on every
request, duplicate adds and missing messages included. -/
theorem C2_react_add_amended (db : DB) (room_id u now now2 : Nat)
    (mid : Option Nat) (rt : Option String) (username : String) (d : FrameData) :
    ChatConsumer.add_message_reaction
        (ChatConsumer.add_message_reaction db room_id u mid rt now).2
        room_id u mid rt now2 =
      (none, (ChatConsumer.add_message_reaction db room_id u mid rt now).2) ∧
    ((∀ m ∈ db.messages, ¬(some m.id = mid ∧ m.room = room_id)) →
      ChatConsumer.add_message_reaction db room_id u mid rt now = (none, db)) ∧
    (ChatConsumer.handle_message_reaction db room_id u username d now).2 =
      [RoomEvent.messageReaction d.message_id d.reaction_type
        (d.action.getD "add") username] := by
  refine ⟨add_message_reaction_idem db room_id u now now2 mid rt, ?_, rfl⟩
  intro h
  have hf : db.messages.find? (fun m => some m.id == mid && m.room == room_id) = none := by
    rw [List.find?_eq_none]
    intro x hx
    have hc := h x hx
    simpa using hc
  simp [ChatConsumer.add_message_reaction, hf]

/-- Claim C2 amended, witnessed at the fixture: a react-add for a message
absent from room 1 stores nothing, and a duplicate react-add still fans
out one event. -/
theorem C2_react_add_amended_witness :
    ChatConsumer.add_message_reaction sampleDb 1 1 (some 99) (some "like") 5 =
      (none, sampleDb) ∧
    (ChatConsumer.handle_message_reaction sampleDb 1 1 "alice" sampleReactFrame 5).2 =
      [RoomEvent.messageReaction (some 10) (some "like") "add" "alice"] := by
  exact ⟨(C2_react_add_amended sampleDb 1 1 5 5 (some 99) (some "like") "alice"
            sampleReactFrame).2.1 (by decide),
         (C2_react_add_amended sampleDb 1 1 5 5 (some 10) (some "like") "alice"
            sampleReactFrame).2.2⟩

/-- Claim C4: when the membership check fails at join time — anonymous
user, non-member, or missing group — the connection is closed with the
channel layer registration set unchanged (the session never joins the
fanout set) and the database untouched; neither `connect` emits any event.
Anonymity and a missing group each force the check to fail, for rooms and
conversations alike. -/
theorem C4_join_gate (db : DB) (layer : ChannelLayer)
    (room_id conversation_id : Nat) (user_id : Option Nat) (ch : String)
    (now : Nat) :
    (ChatConsumer.is_room_member db room_id user_id = false →
      ChatConsumer.connect db layer room_id user_id ch now =
        (ConnectOutcome.closed, layer, db)) ∧
    ChatConsumer.is_room_member db room_id none = false ∧
    ((∀ r ∈ db.rooms, r.id ≠ room_id) →
      ChatConsumer.is_room_member db room_id user_id = false) ∧
    (DirectMessageConsumer.is_conversation_participant db conversation_id user_id = false →
      DirectMessageConsumer.connect db layer conversation_id user_id ch =
        (ConnectOutcome.closed, layer, db)) ∧
    DirectMessageConsumer.is_conversation_participant db conversation_id none = false := by
  refine ⟨?_, ?_, ?_, ?_, ?_⟩
  · intro h
    simp [ChatConsumer.connect, h]
  · unfold ChatConsumer.is_room_member
    cases db.rooms.find? (fun r => r.id == room_id) <;> rfl
  · intro h
    have hf : db.rooms.find? (fun r => r.id == room_id) = none := by
      rw [List.find?_eq_none]
      intro x hx
      simpa using h x hx
    simp [ChatConsumer.is_room_member, hf]
  · intro h
    simp [DirectMessageConsumer.connect, h]
  · unfold DirectMessageConsumer.is_conversation_participant
    cases db.conversations.find? (fun c => c.id == conversation_id) <;> rfl

/-- Claim C4, witnessed at the fixture: user 3 is not a member of room 1
and is turned away with nothing changed; user 1 is not a participant of any
conversation and is likewise turned away. -/
theorem C4_join_gate_witness :
    ChatConsumer.connect sampleDb [] 1 (some 3) "ch" 9 =
      (ConnectOutcome.closed, [], sampleDb) ∧
    DirectMessageConsumer.connect sampleDb [] 1 (some 1) "ch" =
      (ConnectOutcome.closed, [], sampleDb) := by
  exact ⟨(C4_join_gate sampleDb [] 1 1 (some 3) "ch" 9).1 (by decide),
         (C4_join_gate sampleDb [] 1 1 (some 1) "ch" 9).2.2.2.1 (by decide)⟩

/-- Claim C5: an edit request leaves every message untouched and fans out
nothing when the (id, room, sender) lookup fails — message absent, in a
different group, or owned by another sender.  When the lookup succeeds the
found message is the requester's own in this room, and with non-blank
content the handler replaces the content with its stripped form, sets the
edited flag and timestamp, saves exactly that row, and fans out exactly one
`message_edited` event. -/
theorem C5_edit_requires_sender (db : DB) (room_id u now : Nat)
    (mid : Option Nat) (d : FrameData) (hd : d.message_id = mid) :
    ((∀ m ∈ db.messages, ¬(some m.id = mid ∧ m.room = room_id ∧ m.sender = u)) →
      ChatConsumer.handle_message_edit db room_id u d now = (db, [])) ∧
    (∀ m : Message,
      db.messages.find?
        (fun x => some x.id == mid && x.room == room_id && x.sender == u) = some m →
      m.sender = u ∧ m.room = room_id ∧
      (∀ c : String, d.content = some c → (pyStrip c == "") = false →
        ChatConsumer.handle_message_edit db room_id u d now =
          (db.saveMessage (m.editMessage (pyStrip c) now),
           [RoomEvent.messageEdited (m.editMessage (pyStrip c) now)]) ∧
        (m.editMessage (pyStrip c) now).content = pyStrip c ∧
        (m.editMessage (pyStrip c) now).is_edited = true ∧
        (m.editMessage (pyStrip c) now).edited_at = some now)) := by
  subst hd
  constructor
  · intro h
    exact handle_message_edit_not_found db room_id u now d
      (find_message_eq_none db room_id u d.message_id h)
  · intro m hf
    have hp := List.find?_some hf
    simp only [Bool.and_eq_true, beq_iff_eq] at hp
    refine ⟨hp.2, hp.1.2, ?_⟩
    intro c hc hnb
    refine ⟨?_, rfl, rfl, rfl⟩
    unfold ChatConsumer.handle_message_edit
    rw [hc]
    simp only [Option.getD_some, hnb, Bool.false_eq_true, if_false]
    simp [edit_message_found db room_id u now d.message_id (pyStrip c) m hf]

/-- Claim C5, witnessed at the fixture: user 2 cannot edit message 10 (no
change, no event); user 1, the sender, edits it successfully with exactly
one fanout event. -/
theorem C5_edit_requires_sender_witness :
    ChatConsumer.handle_message_edit sampleDb 1 2 sampleEditFrame 5 =
      (sampleDb, []) ∧
    ChatConsumer.handle_message_edit sampleDb 1 1 sampleEditFrame 5 =
      (sampleDb.saveMessage (sampleDeletedMessage.editMessage (pyStrip "new") 5),
       [RoomEvent.messageEdited (sampleDeletedMessage.editMessage (pyStrip "new") 5)]) := by
  exact ⟨(C5_edit_requires_sender sampleDb 1 2 5 (some 10) sampleEditFrame rfl).1
           (by decide),
         (((C5_edit_requires_sender sampleDb 1 1 5 (some 10) sampleEditFrame rfl).2
           sampleDeletedMessage (by decide)).2.2 "new" rfl (by decide)).1⟩

/-- Claim C6: when the room has vanished, Create fails — no message is
stored, the database is untouched, and the chat-message handler fans out
nothing.  When a save succeeds, the new message is owned by the sender,
belongs to the room, carries the given content with `deleted = edited =
false`, is prepended to the store, and its reply-target, if set, refers to
a message of the same room. -/
theorem C6_create (db : DB) (room_id u now new_id : Nat) (rt : Option Nat)
    (c : String) :
    ((∀ r ∈ db.rooms, r.id ≠ room_id) →
      (∀ (c2 : String) (rt2 : Option Nat),
        ChatConsumer.save_message db room_id u c2 rt2 now new_id = (none, db)) ∧
      (∀ d : FrameData,
        ChatConsumer.handle_chat_message db room_id u d now new_id = (db, []))) ∧
    (∀ (msg : Message) (db2 : DB),
      ChatConsumer.save_message db room_id u c rt now new_id = (some msg, db2) →
      msg.sender = u ∧ msg.room = room_id ∧ msg.content = c ∧
      msg.is_deleted = false ∧ msg.is_edited = false ∧
      msg.deleted_at = none ∧ msg.edited_at = none ∧
      db2.messages = msg :: db.messages ∧
      (∀ rid, msg.reply_to = some rid →
        ∃ m0 ∈ db.messages, m0.id = rid ∧ m0.room = room_id)) := by
  constructor
  · intro h
    have hf : db.rooms.find? (fun r => r.id == room_id) = none := by
      rw [List.find?_eq_none]
      intro x hx
      simpa using h x hx
    have hs : ∀ (c2 : String) (rt2 : Option Nat),
        ChatConsumer.save_message db room_id u c2 rt2 now new_id = (none, db) := by
      intro c2 rt2
      simp [ChatConsumer.save_message, hf]
    refine ⟨hs, ?_⟩
    intro d
    unfold ChatConsumer.handle_chat_message
    by_cases hc : (pyStrip (d.content.getD "") == "") = true
    · simp [hc]
    · simp [hc, hs]
  · intro msg db2 hsave
    unfold ChatConsumer.save_message at hsave
    cases hroom : db.rooms.find? (fun r => r.id == room_id) with
    | none => rw [hroom] at hsave; simp at hsave
    | some room =>
      rw [hroom] at hsave
      simp only [Prod.mk.injEq, Option.some.injEq] at hsave
      obtain ⟨hmsg, hdb2⟩ := hsave
      subst hmsg
      subst hdb2
      refine ⟨rfl, rfl, rfl, rfl, rfl, rfl, rfl, rfl, ?_⟩
      intro rid hrid
      by_cases ht : truthyId rt = true
      · simp only [ht, if_true] at hrid
        cases hfind : db.messages.find? (fun m => some m.id == rt && m.room == room_id) with
        | none => rw [hfind] at hrid; simp at hrid
        | some r =>
          rw [hfind] at hrid
          simp only [Option.some.injEq] at hrid
          have hmem := List.mem_of_find?_eq_some hfind
          have hpred := List.find?_some hfind
          simp only [Bool.and_eq_true, beq_iff_eq] at hpred
          exact ⟨r, hmem, hrid, hpred.2⟩
      · simp only [Bool.not_eq_true] at ht
        simp [ht] at hrid

/-- Claim C6, witnessed at the fixture: saving into nonexistent room 2
fails with no change, and message 10 — the reply target the success branch
guarantees — is a message of room 1. -/
theorem C6_create_witness :
    ChatConsumer.save_message sampleDb 2 1 "hi" none 5 11 = (none, sampleDb) ∧
    ∃ m0 ∈ sampleDb.messages, m0.id = 10 ∧ m0.room = 1 := by
  refine ⟨((C6_create sampleDb 2 1 5 11 none "hi").1 (by decide)).1 "hi" none, ?_⟩
  exact ((C6_create sampleDb 1 1 5 11 (some 10) "hi").2
    { id := 11, room := 1, sender := 1, content := "hi", reply_to := some 10,
      is_edited := false, edited_at := none, is_deleted := false,
      deleted_at := none, created_at := 5 }
    { sampleDb with messages :=
        { id := 11, room := 1, sender := 1, content := "hi", reply_to := some 10,
          is_edited := false, edited_at := none, is_deleted := false,
          deleted_at := none, created_at := 5 } :: sampleDb.messages }
    (by decide)).2.2.2.2.2.2.2.2 10 rfl

/-- Claim C8: a malformed (non-decodable) frame yields exactly one error
reply to the requesting socket only, with no state change and no fanout; a
decoded frame whose tag is not recognized by the consumer is silently
ignored — no error, no state change, no fanout.  Neither consumer closes
the connection in `receive` (the room consumer returns normally and the
conversation consumer returns without error for these frames). -/
theorem C8_router_errors (db : DB) (room_id conversation_id u now new_id : Nat)
    (username : String) (d : FrameData) :
    ChatConsumer.receive db room_id u username Frame.malformed now new_id =
      (db, [], [SelfReply.errorReply "Invalid JSON"]) ∧
    DirectMessageConsumer.receive db conversation_id u username Frame.malformed
        now new_id =
      Except.ok (db, [], [SelfReply.errorReply "Invalid JSON"]) ∧
    (d.type ∉ [some "chat_message", some "typing", some "message_reaction",
        some "message_edit", some "message_delete"] →
      ChatConsumer.receive db room_id u username (Frame.obj d) now new_id =
        (db, [], [])) ∧
    (d.type ∉ [some "direct_message", some "typing", some "message_read"] →
      DirectMessageConsumer.receive db conversation_id u username (Frame.obj d)
          now new_id =
        Except.ok (db, [], [])) := by
  refine ⟨rfl, rfl, ?_, ?_⟩
  · intro h
    simp only [List.mem_cons, List.not_mem_nil, or_false, not_or] at h
    simp [ChatConsumer.receive, h.1, h.2.1, h.2.2.1, h.2.2.2.1, h.2.2.2.2]
  · intro h
    simp only [List.mem_cons, List.not_mem_nil, or_false, not_or] at h
    simp [DirectMessageConsumer.receive, h.1, h.2.1, h.2.2]

/-- Claim C8, witnessed at the fixture: the unrecognized tag "bogus" is
ignored by both consumers with nothing changed and nothing sent. -/
theorem C8_router_errors_witness :
    ChatConsumer.receive sampleDb 1 1 "alice" (Frame.obj { type := some "bogus" })
        5 11 = (sampleDb, [], []) ∧
    DirectMessageConsumer.receive sampleDb 1 1 "alice"
        (Frame.obj { type := some "bogus" }) 5 11 = Except.ok (sampleDb, [], []) := by
  exact ⟨(C8_router_errors sampleDb 1 1 1 5 11 "alice"
            { type := some "bogus" }).2.2.1 (by decide),
         (C8_router_errors sampleDb 1 1 1 5 11 "alice"
            { type := some "bogus" }).2.2.2 (by decide)⟩

/-- Claim C9: presence is a room-session lifecycle effect.  A successful
room join performs exactly the accept, the group registration, and one
online flip of the session's user; a failed join leaves the user table
untouched; room disconnect performs exactly the group discard and one
offline flip; `update_user_status` writes `set_online_status` back for the
session's user row; and a conversation session's connect and disconnect
leave the database — in particular the online flag — unchanged. -/
theorem C9_presence_flips (db : DB) (layer : ChannelLayer)
    (room_id conversation_id uid now : Nat) (user_id : Option Nat)
    (ch : String) (b : Bool) :
    (ChatConsumer.is_room_member db room_id (some uid) = true →
      ChatConsumer.connect db layer room_id (some uid) ch now =
        (ConnectOutcome.accepted, group_add layer (roomGroupName room_id) ch,
         ChatConsumer.update_user_status db uid true now)) ∧
    (ChatConsumer.is_room_member db room_id user_id = false →
      (ChatConsumer.connect db layer room_id user_id ch now).2.2 = db) ∧
    ChatConsumer.disconnect db layer room_id uid ch now =
      (group_discard layer (roomGroupName room_id) ch,
       ChatConsumer.update_user_status db uid false now) ∧
    (∀ u0, db.users.find? (fun x => x.id == uid) = some u0 →
      ChatConsumer.update_user_status db uid b now =
        db.saveUser (u0.setOnlineStatus b now) ∧
      (u0.setOnlineStatus b now).is_online = b) ∧
    (DirectMessageConsumer.connect db layer conversation_id user_id ch).2.2 = db ∧
    (DirectMessageConsumer.disconnect db layer conversation_id ch).2 = db := by
  refine ⟨?_, ?_, rfl, ?_, ?_, rfl⟩
  · intro h
    simp [ChatConsumer.connect, h]
  · intro h
    simp [ChatConsumer.connect, h]
  · intro u0 hf
    exact ⟨by simp [ChatConsumer.update_user_status, hf], rfl⟩
  · unfold DirectMessageConsumer.connect
    cases h : DirectMessageConsumer.is_conversation_participant db conversation_id
        user_id <;> simp [h]

/-- Claim C9, witnessed at the fixture: member user 1 joining room 1 flips
exactly their row online. -/
theorem C9_presence_flips_witness :
    ChatConsumer.connect sampleDb [] 1 (some 1) "ch" 9 =
      (ConnectOutcome.accepted, group_add [] (roomGroupName 1) "ch",
       ChatConsumer.update_user_status sampleDb 1 true 9) ∧
    (UserRec.setOnlineStatus ⟨1, "alice", false, "offline", 0⟩ true 9).is_online
      = true := by
  exact ⟨(C9_presence_flips sampleDb [] 1 1 1 9 (some 1) "ch" true).1 (by decide),
         ((C9_presence_flips sampleDb [] 1 1 1 9 (some 1) "ch" true).2.2.2.1
            ⟨1, "alice", false, "offline", 0⟩ (by decide)).2⟩

end ChatBackend
